import Mathlib

/-!
Shallow embedding of `seriald.py` (class SerialDaemon and its module helpers).

Strings on the Python side are modelled as `List Char` (the daemon decodes the
socket bytes to text before parsing, seriald.py line 241).  Python's
`int(s, base)` is modelled on its ASCII fragment: surrounding whitespace is
stripped, an optional sign is allowed, base-16 parsing accepts an optional
`0x`/`0X` prefix, and digit runs may contain single underscores between
digits.  Fallible Python code is modelled with `Option`/`Except`; the I/O of
the connection loop, the configuration loader and `start()` is modelled by
explicit environment records and event traces.
-/

namespace Seriald

/-- Whitespace characters stripped by Python `str.strip()` and `int()`
(ASCII fragment). -/
def pySpace (c : Char) : Bool :=
  c == ' ' || c == '\t' || c == '\n' || c == '\r' || c == '\x0b' || c == '\x0c'

/-- Python `str.strip()`: drop whitespace from both ends. -/
def pyStrip (l : List Char) : List Char :=
  ((l.dropWhile pySpace).reverse.dropWhile pySpace).reverse

/-- Value of a single ASCII hexadecimal digit, as accepted by `int(-, 16)`. -/
def hexDigitVal (c : Char) : Option Nat :=
  if 48 ≤ c.toNat ∧ c.toNat ≤ 57 then some (c.toNat - 48)
  else if 97 ≤ c.toNat ∧ c.toNat ≤ 102 then some (c.toNat - 87)
  else if 65 ≤ c.toNat ∧ c.toNat ≤ 70 then some (c.toNat - 55)
  else none

/-- Value of a single ASCII decimal digit, as accepted by `int(-)`. -/
def decDigitVal (c : Char) : Option Nat :=
  if 48 ≤ c.toNat ∧ c.toNat ≤ 57 then some (c.toNat - 48) else none

/-- Continuation of a digit run: after an initial digit, Python allows single
underscores strictly between digits (`1_2` is valid, `1__2` and `1_` are not). -/
def digitsAux (dv : Char → Option Nat) (b : Nat) : List Char → Nat → Option Nat
  | [], acc => some acc
  | c :: rest, acc =>
    if c = '_' then
      match rest with
      | c2 :: rest2 =>
        match dv c2 with
        | some d => digitsAux dv b rest2 (acc * b + d)
        | none => none
      | [] => none
    else
      match dv c with
      | some d => digitsAux dv b rest (acc * b + d)
      | none => none

/-- Complete digit run: at least one digit, underscores only between digits. -/
def digitsRun (dv : Char → Option Nat) (b : Nat) (l : List Char) : Option Nat :=
  match l with
  | [] => none
  | c :: rest =>
    if c = '_' then none
    else
      match dv c with
      | some d => digitsAux dv b rest d
      | none => none

/-- Optional sign in front of a Python integer literal; returns
(isNegative, remainder). -/
def pySign (l : List Char) : Bool × List Char :=
  match l with
  | c :: rest =>
    if c = '+' then (false, rest)
    else if c = '-' then (true, rest)
    else (false, l)
  | [] => (false, [])

/-- Unsigned body of `int(-, 16)`: optional `0x`/`0X` prefix (an underscore is
allowed directly after the prefix), then a hex digit run. -/
def pyHexBody (l : List Char) : Option Nat :=
  match l with
  | [] => none
  | [c] => digitsRun hexDigitVal 16 [c]
  | c0 :: c1 :: rest =>
    if c0 = '0' ∧ (c1 = 'x' ∨ c1 = 'X') then
      match rest with
      | c2 :: rest2 => if c2 = '_' then digitsRun hexDigitVal 16 rest2
                       else digitsRun hexDigitVal 16 rest
      | [] => none
    else digitsRun hexDigitVal 16 (c0 :: c1 :: rest)

/-- Application of the sign to the parsed magnitude. -/
def pyIntFinish (neg : Bool) (r : Option Nat) : Option Int :=
  match r with
  | none => none
  | some n => some (if neg then -(n : Int) else (n : Int))

/-- Python `int(s, 16)` on a decoded string; `none` models `ValueError`. -/
def pyIntHex (l : List Char) : Option Int :=
  pyIntFinish (pySign (pyStrip l)).1 (pyHexBody (pySign (pyStrip l)).2)

/-- Python `int(s)` (base 10) on a decoded string; `none` models `ValueError`.
No `0x` prefix is accepted in base 10. -/
def pyIntDec (l : List Char) : Option Int :=
  pyIntFinish (pySign (pyStrip l)).1 (digitsRun decDigitVal 10 (pySign (pyStrip l)).2)

/-- Frame produced from one socket read (spec component ProtocolCodec). -/
structure Frame where
  replyLengthDigitCount : Nat
  replyLength : Int
  payload : List Char
  deriving DecidableEq, Repr

/-- Parsing of a non-empty decoded socket string, seriald.py lines 251-258:
`reply_length_byte_length = 0`; in a `try` block first
`int(data[0], 16)` then `int(data[1 : reply_length_byte_length + 1], 16)`;
a `ValueError` from either call sets `reply_length = 0` (the first failure
also leaves `reply_length_byte_length` at `0`); finally
`data = data[reply_length_byte_length + 1:]`.
A one-character string never parses to a negative integer
(`pyIntHex_singleton`), so `Int.toNat` is exact here. -/
def parseFrame (d0 : Char) (tl : List Char) : Frame :=
  match pyIntHex [d0] with
  | none => ⟨0, 0, tl⟩
  | some z => ⟨z.toNat, (pyIntHex (tl.take z.toNat)).getD 0, tl.drop z.toNat⟩

/-- Parsing of a decoded socket read (empty input means the peer closed the
connection, seriald.py lines 243-246, and produces no frame). -/
def parse (data : List Char) : Option Frame :=
  match data with
  | [] => none
  | d0 :: tl => some (parseFrame d0 tl)

/-- Python exceptions that the modelled code can raise or catch. -/
inductive PyExc
  | valueError
  | nameError
  | attributeError
  | connectionReset
  | unicodeDecodeError
  | otherError
  deriving DecidableEq, Repr

/-! ### Connection loop (seriald.py `SerialDaemon.__run`, lines 225-294)

One iteration of the `while True` loop is modelled by `runBody`.  The
environment supplies what the outside world returns: the decoded result of
`soc.recv(...).decode(...)` (or an exception raised there), the bytes the
serial device returns to `read` together with their decoding, and whether
`soc.sendall` raises.  The observable side effects are collected in a trace
of actions. -/

/-- Observable I/O action of one loop iteration. -/
inductive Action
  | accept
  | closeSock
  | openSerial
  | closeSerial
  | flushOut
  | flushIn
  | writeSerial (payload : List Char)
  | readSerial (n : Nat)
  | sendReply (reply : List Nat)
  deriving DecidableEq, Repr

/-- State carried between loop iterations: whether the client socket is open
(`soc.fileno() >= 0`) and whether the serial port is open. -/
structure IterState where
  socketOpen : Bool
  serialOpen : Bool
  deriving DecidableEq, Repr

/-- Environment of one loop iteration. -/
structure IterEnv where
  recvExc : Option PyExc
  recvData : List Char
  replyRaw : List Nat
  replyDecoded : List Char
  sendExc : Option PyExc
  deriving DecidableEq, Repr

/-- Result of one execution of the loop body. -/
inductive BodyResult
  | ok (st : IterState)
  | raised (e : PyExc)
  deriving DecidableEq, Repr

/-- Lines 235-239: accept a new connection when the socket is closed. -/
def preTrace (st : IterState) : List Action :=
  if st.socketOpen then [] else [Action.accept]

/-- Lines 260-263: open the serial port if it is not yet open. -/
def lazyOpen (serialIsOpen : Bool) : List Action :=
  if serialIsOpen then [] else [Action.openSerial]

/-- Lines 278-289: read the expected reply when `reply_length > 0`, then send
it to the client when `len(reply_decoded) == reply_length or not
self.reply_length_strict`; a `ConnectionResetError` from `sendall` is caught,
the socket is closed and the loop continues; any other exception from
`sendall` escapes the body. -/
def tailTrace (strict : Bool) (f : Frame) (env : IterEnv) : List Action × BodyResult :=
  if 0 < f.replyLength then
    if (env.replyDecoded.length : Int) = f.replyLength ∨ strict = false then
      match env.sendExc with
      | some PyExc.connectionReset =>
        ([Action.readSerial f.replyLength.toNat, Action.closeSock],
         BodyResult.ok ⟨false, true⟩)
      | some e => ([Action.readSerial f.replyLength.toNat], BodyResult.raised e)
      | none =>
        ([Action.readSerial f.replyLength.toNat, Action.sendReply env.replyRaw],
         BodyResult.ok ⟨true, true⟩)
    else ([Action.readSerial f.replyLength.toNat], BodyResult.ok ⟨true, true⟩)
  else ([], BodyResult.ok ⟨true, true⟩)

/-- One iteration of the connection loop, seriald.py lines 234-289: accept if
the socket is closed; recv and decode (an exception there escapes the body);
empty data closes the socket and continues; otherwise parse the frame, open
the serial port lazily, flush, write the payload, close and reopen the port,
then handle the reply as in `tailTrace`. -/
def runBody (strict : Bool) (st : IterState) (env : IterEnv) : List Action × BodyResult :=
  match env.recvExc with
  | some e => (preTrace st, BodyResult.raised e)
  | none =>
    match env.recvData with
    | [] => (preTrace st ++ [Action.closeSock], BodyResult.ok ⟨false, st.serialOpen⟩)
    | d0 :: tl =>
      (preTrace st ++ lazyOpen st.serialOpen ++
        (Action.flushOut :: Action.flushIn ::
         Action.writeSerial (parseFrame d0 tl).payload ::
         Action.closeSerial :: Action.openSerial ::
         (tailTrace strict (parseFrame d0 tl) env).1),
       (tailTrace strict (parseFrame d0 tl) env).2)

/-- The `while True` loop run over a finite schedule of environments: it
stops early only when an iteration raises.  An exhausted schedule means the
(in reality infinite) loop is still running. -/
def runLoop (strict : Bool) : IterState → List IterEnv → List Action × Option PyExc
  | _, [] => ([], none)
  | st, env :: rest =>
    match runBody strict st env with
    | (tr, BodyResult.ok st') =>
      (tr ++ (runLoop strict st' rest).1, (runLoop strict st' rest).2)
    | (tr, BodyResult.raised e) => (tr, some e)

/-- Observable event of `__run` as a whole. -/
inductive RunEvent
  | act (a : Action)
  | logTrace (e : PyExc)
  | stopCalled
  deriving DecidableEq, Repr

/-- `__run`, seriald.py lines 225-294: the loop runs inside `try`; a bare
`except` catches any exception and writes the traceback to the log file
(line 292); control then falls through to `self.__stop()` (line 294).  The
loop itself never terminates normally, so `__stop` is reached only through
the handler. -/
def runDaemon (strict : Bool) (st : IterState) (envs : List IterEnv) : List RunEvent :=
  match runLoop strict st envs with
  | (tr, some e) => tr.map RunEvent.act ++ [RunEvent.logTrace e, RunEvent.stopCalled]
  | (tr, none) => tr.map RunEvent.act

/-! ### Configuration loading (seriald.py `SerialDaemon.__load_config`,
lines 296-356)

The option/value regex (lines 303-316) is modelled as a small backtracking
matcher with exactly the pattern's semantics:
`\s* KEYWORD \s* (?:=\s*)? ( "([^"]+)" | unquote ([^unquote]+) unquote |
([^#\r\n]+) )` where KEYWORD is one of the five option names,
case-insensitively, with `-` and `_` interchangeable. -/

/-- Recognized configuration keys. -/
inductive ConfigKey
  | dataLength
  | dataEncoding
  | socketPort
  | socketHost
  | pidfilePath
  deriving DecidableEq, Repr

/-- ASCII lowercasing, the effect of the regex `I` flag on these patterns. -/
def lowerAscii (c : Char) : Char :=
  if 65 ≤ c.toNat ∧ c.toNat ≤ 90 then Char.ofNat (c.toNat + 32) else c

/-- Matching of one pattern character: `-` in a pattern stands for the class
`[-_]`, letters match case-insensitively. -/
def charMatches (p c : Char) : Bool :=
  if p = '-' then c == '-' || c == '_' else lowerAscii c == p

/-- Matching of a literal keyword pattern; returns the rest of the input. -/
def matchLit : List Char → List Char → Option (List Char)
  | [], l => some l
  | _ :: _, [] => none
  | p :: ps, c :: cs => if charMatches p c then matchLit ps cs else none

/-- Keyword alternation in source order (the five prefixes are mutually
exclusive, so first-match equals the regex alternation). -/
def matchKeyword (l : List Char) : Option (ConfigKey × List Char) :=
  match matchLit ['d','a','t','a','-','l','e','n','g','t','h'] l with
  | some r => some (ConfigKey.dataLength, r)
  | none =>
    match matchLit ['d','a','t','a','-','e','n','c','o','d','i','n','g'] l with
    | some r => some (ConfigKey.dataEncoding, r)
    | none =>
      match matchLit ['s','o','c','k','e','t','-','p','o','r','t'] l with
      | some r => some (ConfigKey.socketPort, r)
      | none =>
        match matchLit ['s','o','c','k','e','t','-','h','o','s','t'] l with
        | some r => some (ConfigKey.socketHost, r)
        | none =>
          match matchLit ['p','i','d','f','i','l','e','-','p','a','t','h'] l with
          | some r => some (ConfigKey.pidfilePath, r)
          | none => none

/-- Quoted value alternative: `q ([^q]+) q` for a quote character `q`. -/
def quotedValue (q : Char) (l : List Char) : Option (List Char) :=
  match l with
  | [] => none
  | c :: rest =>
    if c = q then
      if rest.takeWhile (fun x => !(x == q)) ≠ [] ∧
         rest.dropWhile (fun x => !(x == q)) ≠ [] then
        some (rest.takeWhile (fun x => !(x == q)))
      else none
    else none

/-- Unquoted value alternative: `[^#\r\n]+`. -/
def rawValue (l : List Char) : Option (List Char) :=
  if l.takeWhile (fun c => !(c == '#') && !(c == '\r') && !(c == '\n')) = [] then none
  else some (l.takeWhile (fun c => !(c == '#') && !(c == '\r') && !(c == '\n')))

/-- Value alternation in source order: double-quoted, single-quoted, raw. -/
def matchValueAt (l : List Char) : Option (List Char) :=
  match quotedValue '"' l with
  | some v => some v
  | none =>
    match quotedValue (Char.ofNat 39) l with
    | some v => some v
    | none => rawValue l

/-- Backtracking `\s* VALUE`: the star is greedy, giving characters back one
at a time when the value fails to match. -/
def wsThenValue : List Char → Option (List Char)
  | [] => matchValueAt []
  | c :: rest =>
    if pySpace c then
      match wsThenValue rest with
      | some v => some v
      | none => matchValueAt (c :: rest)
    else matchValueAt (c :: rest)

/-- Backtracking `(?:=\s*)? VALUE`: the optional group is tried first; if the
value cannot be matched after the `=`, the group is given up and the value is
matched from the `=` itself. -/
def matchEqOpt (l : List Char) : Option (List Char) :=
  match l with
  | [] => matchValueAt []
  | c :: rest =>
    if c = '=' then
      match wsThenValue rest with
      | some v => some v
      | none => matchValueAt (c :: rest)
    else matchValueAt (c :: rest)

/-- Backtracking `\s* (?:=\s*)? VALUE` after the keyword. -/
def wsThenEqValue : List Char → Option (List Char)
  | [] => matchEqOpt []
  | c :: rest =>
    if pySpace c then
      match wsThenEqValue rest with
      | some v => some v
      | none => matchEqOpt (c :: rest)
    else matchEqOpt (c :: rest)

/-- The whole option/value regex applied with `regex.match` to the stripped
line (leading `\s*` then keyword then `wsThenEqValue`; a keyword never starts
with whitespace, so plain `dropWhile` is exact for the leading star). -/
def configLineMatch (l : List Char) : Option (ConfigKey × List Char) :=
  match matchKeyword (l.dropWhile pySpace) with
  | some (k, rest) =>
    match wsThenEqValue rest with
    | some v => some (k, v)
    | none => none
  | none => none

/-- Reloadable configuration fields of the daemon (`self.data_length` etc.). -/
structure ConfigState where
  dataLength : Int
  dataEncoding : List Char
  socketPort : Int
  socketHost : List Char
  pidfilePath : Option (List Char)
  deriving DecidableEq, Repr

/-- Syslog message issued while loading the configuration. -/
inductive CfgEvent
  | invalidValue (k : ConfigKey)
  | lineError (lineNum : Nat)
  deriving DecidableEq, Repr

/-- Lines 326-347: assignment of a matched option.  String-typed keys are
assigned verbatim; numeric keys go through `int(...)` — a `ValueError` there
is NOT caught and aborts the load — and a non-positive value is logged, the
previous value is re-assigned, and processing continues. -/
def applyOpt (st : ConfigState) (k : ConfigKey) (v : List Char) :
    List CfgEvent × Except PyExc ConfigState :=
  match k with
  | ConfigKey.dataEncoding => ([], Except.ok { st with dataEncoding := v })
  | ConfigKey.socketHost => ([], Except.ok { st with socketHost := v })
  | ConfigKey.pidfilePath => ([], Except.ok { st with pidfilePath := some v })
  | ConfigKey.dataLength =>
    match pyIntDec v with
    | none => ([], Except.error PyExc.valueError)
    | some z =>
      if z ≤ 0 then ([CfgEvent.invalidValue ConfigKey.dataLength], Except.ok st)
      else ([], Except.ok { st with dataLength := z })
  | ConfigKey.socketPort =>
    match pyIntDec v with
    | none => ([], Except.error PyExc.valueError)
    | some z =>
      if z ≤ 0 then ([CfgEvent.invalidValue ConfigKey.socketPort], Except.ok st)
      else ([], Except.ok { st with socketPort := z })

/-- Lines 319-353: one line of the configuration file.  A line starting with
`#` (unstripped) is skipped; otherwise the stripped line is matched against
the regex; no match logs a syntax error with the line number and processing
continues. -/
def processLine (st : ConfigState) (lineNum : Nat) (line : List Char) :
    List CfgEvent × Except PyExc ConfigState :=
  if line.head? = some '#' then ([], Except.ok st)
  else
    match configLineMatch (pyStrip line) with
    | some (k, v) => applyOpt st k v
    | none => ([CfgEvent.lineError lineNum], Except.ok st)

/-- Processing of all configuration lines in order (line numbers start at 1);
an uncaught exception aborts the remainder, keeping the events logged so far. -/
def loadLines (st : ConfigState) (lineNum : Nat) :
    List (List Char) → List CfgEvent × Except PyExc ConfigState
  | [] => ([], Except.ok st)
  | line :: rest =>
    match processLine st (lineNum + 1) line with
    | (evs, Except.error e) => (evs, Except.error e)
    | (evs, Except.ok st') =>
      (evs ++ (loadLines st' (lineNum + 1) rest).1, (loadLines st' (lineNum + 1) rest).2)

/-- Outcome of `__load_config`. -/
inductive LoadResult
  | nameError
  | skipped
  | loaded (evs : List CfgEvent) (st : ConfigState)
  | raised (e : PyExc) (evs : List CfgEvent)
  deriving DecidableEq, Repr

/-- `__load_config`, seriald.py lines 296-356.  The local variable `conf` is
assigned only inside `if self.config_file is not None:`; the following
`if conf is not None:` reads it in either case, so a `None` config path hits
an unbound local and raises `NameError` (`UnboundLocalError`).  When the
open fails, `_openfile` returns `None` after logging and the body is
skipped. -/
def loadConfig (configFile : Option (List Char)) (openResult : Option (List (List Char)))
    (st : ConfigState) : LoadResult :=
  match (match configFile with
         | some _ => some openResult
         | none => none : Option (Option (List (List Char)))) with
  | none => LoadResult.nameError
  | some none => LoadResult.skipped
  | some (some lines) =>
    match loadLines st 0 lines with
    | (evs, Except.ok st') => LoadResult.loaded evs st'
    | (evs, Except.error e) => LoadResult.raised e evs

/-- Linux SIGHUP. -/
def SIGHUP : Nat := 1

/-- Outcome of the signal handler `__accept_signal` (lines 409-414). -/
inductive SigResult
  | reloaded (r : LoadResult)
  | stopping
  deriving DecidableEq, Repr

/-- `__accept_signal`: SIGHUP reloads the configuration, any other mapped
signal logs and runs the shutdown sequence. -/
def acceptSignal (configFile : Option (List Char))
    (openResult : Option (List (List Char))) (st : ConfigState) (sig : Nat) : SigResult :=
  if sig = SIGHUP then SigResult.reloaded (loadConfig configFile openResult st)
  else SigResult.stopping

/-! ### Startup (seriald.py `SerialDaemon.start`, lines 358-388, and the
helpers `_get_pid`, `_pidfile_isbusy`, lines 441-461) -/

/-- `_get_pid`: `None` when the pidfile cannot be opened, otherwise
`int(first_line.strip())` — which raises `ValueError` on garbage. -/
def getPid (content : Option (List Char)) : Except PyExc (Option Int) :=
  match content with
  | none => Except.ok none
  | some l =>
    match pyIntDec (pyStrip l) with
    | some z => Except.ok (some z)
    | none => Except.error PyExc.valueError

/-- `_pidfile_isbusy`, lines 448-461: `False` unless the lock file is held;
then the recorded pid is read and probed with `os.kill(pid, 0)`. -/
def pidfileIsBusy (lockHeld : Bool) (content : Option (List Char)) (alive : Bool) :
    Except PyExc Bool :=
  if lockHeld then
    match getPid content with
    | Except.error e => Except.error e
    | Except.ok none => Except.ok false
    | Except.ok (some _) => Except.ok alive
  else Except.ok false

/-- Observable event of `start()`. -/
inductive StartEvent
  | syslogOpened
  | logAlreadyRunning
  | syslogClosed
  | daemonized
  | pidfileWritten (pid : Nat)
  | socketBound
  | listening
  | loopEntered
  deriving DecidableEq, Repr

/-- Outcome of `start()`. -/
inductive StartOutcome
  | refused
  | running (st : ConfigState)
  | exited
  | raised (e : PyExc)
  deriving DecidableEq, Repr

/-- Construction-time inputs of the daemon that `start()` consults. -/
structure DaemonInit where
  configFile : Option (List Char)
  manualLock : Option (List Char)
  st : ConfigState
  deriving DecidableEq, Repr

/-- Environment of one `start()` invocation. -/
structure StartEnv where
  openConfigResult : Option (List (List Char))
  pidfileExists : Bool
  lockHeld : Bool
  pidfileContent : Option (List Char)
  pidAlive : Bool
  pidWriteOk : Bool
  ownPid : Nat
  deriving DecidableEq, Repr

/-- Lines 365-366: when `pidfile_path` is set (possibly by the config just
loaded) a fresh `FileLock` on it replaces `daemon_context.pidfile`; otherwise
the pre-existing `daemon_context.pidfile` (if any) stays. -/
def effectiveLockPath (ini : DaemonInit) (st : ConfigState) : Option (List Char) :=
  match st.pidfilePath with
  | some p => some p
  | none => ini.manualLock

/-- Configuration state after a load that did not raise. -/
def postLoadState (r : LoadResult) (st0 : ConfigState) : Option ConfigState :=
  match r with
  | LoadResult.skipped => some st0
  | LoadResult.loaded _ st' => some st'
  | _ => none

/-- Lines 374-388: daemonize, write the own pid (an open failure runs
`__stop` and exits with status 255), create/bind/listen the socket, enter
`__run`. -/
def startProceed (env : StartEnv) (ev0 : List StartEvent) (st : ConfigState) :
    List StartEvent × StartOutcome :=
  if env.pidWriteOk then
    (ev0 ++ [StartEvent.daemonized, StartEvent.pidfileWritten env.ownPid,
             StartEvent.socketBound, StartEvent.listening, StartEvent.loopEntered],
     StartOutcome.running st)
  else (ev0 ++ [StartEvent.daemonized], StartOutcome.exited)

/-- Lines 365-373 after the configuration was loaded: attach the pidfile
lock (`None` pidfile raises `AttributeError` at `.path`), then the
already-running check: only when the pidfile exists AND `_pidfile_isbusy`
holds does `start` log and return. -/
def startAfterLoad (ini : DaemonInit) (env : StartEnv) (ev0 : List StartEvent)
    (st : ConfigState) : List StartEvent × StartOutcome :=
  match effectiveLockPath ini st with
  | none => (ev0, StartOutcome.raised PyExc.attributeError)
  | some _ =>
    if env.pidfileExists then
      match pidfileIsBusy env.lockHeld env.pidfileContent env.pidAlive with
      | Except.error e => (ev0, StartOutcome.raised e)
      | Except.ok true =>
        (ev0 ++ [StartEvent.logAlreadyRunning, StartEvent.syslogClosed],
         StartOutcome.refused)
      | Except.ok false => startProceed env ev0 st
    else startProceed env ev0 st

/-- `start()`, seriald.py lines 358-388: open syslog, load the configuration
(exceptions from the load propagate), then run the pidfile check and the
startup sequence. -/
def start (ini : DaemonInit) (env : StartEnv) : List StartEvent × StartOutcome :=
  match loadConfig ini.configFile env.openConfigResult ini.st with
  | LoadResult.nameError => ([StartEvent.syslogOpened], StartOutcome.raised PyExc.nameError)
  | LoadResult.raised e _ => ([StartEvent.syslogOpened], StartOutcome.raised e)
  | LoadResult.skipped => startAfterLoad ini env [StartEvent.syslogOpened] ini.st
  | LoadResult.loaded _ st' => startAfterLoad ini env [StartEvent.syslogOpened] st'

/-! ### Concrete instances used in witnesses and counterexamples -/

/-- Configuration state with the constructor defaults of seriald.py
lines 164-200 (`data_length = 1024`, `data_encoding = 'utf-8'`,
`socket_port = 57001`, `socket_host = ''`, a set pidfile path). -/
def cfgDemo : ConfigState :=
  ⟨1024, ['u','t','f','-','8'], 57001, [], some ['p']⟩

/-- Daemon with a configured (but unreadable) config file. -/
def iniDemo : DaemonInit := ⟨some ['c'], none, cfgDemo⟩

/-- Start environment: the pidfile exists and records the live pid 42, but
the lock file is not held. -/
def envStale : StartEnv := ⟨none, true, false, some ['4','2'], true, true, 7⟩

/-- Start environment: the pidfile exists, the lock is held, and the
recorded pid 42 is alive. -/
def envBusy : StartEnv := ⟨none, true, true, some ['4','2'], true, true, 7⟩

/-- Both the socket and the serial port are open. -/
def stBoth : IterState := ⟨true, true⟩

/-- Loop iteration: the client sends `12A` (a frame with reply length 2 and
payload `A`), the device returns two bytes, the send succeeds. -/
def envOkSend : IterEnv := ⟨none, ['1','2','A'], [65, 66], ['A','B'], none⟩

/-- Like `envOkSend` but `sendall` raises `ConnectionResetError`. -/
def envReset : IterEnv := ⟨none, ['1','2','A'], [65, 66], ['A','B'], some PyExc.connectionReset⟩

/-- Loop iteration in which recv/decode raises a `ValueError`. -/
def envRaise : IterEnv := ⟨some PyExc.valueError, [], [], [], none⟩

/-- The config line `data-length = abc` (numeric key, non-numeric value). -/
def lineBadNumeric : List Char :=
  ['d','a','t','a','-','l','e','n','g','t','h',' ','=',' ','a','b','c']

/-- The config line `data_length=-5` of spec section 8. -/
def lineNegNumeric : List Char :=
  ['d','a','t','a','_','l','e','n','g','t','h','=','-','5']

/-- Value of a hex digit is at most 15. -/
theorem hexDigitVal_le15 {c : Char} {d : Nat} (h : hexDigitVal c = some d) : d ≤ 15 := by
  unfold hexDigitVal at h
  split at h
  · injection h with h; omega
  · split at h
    · injection h with h; omega
    · split at h
      · injection h with h; omega
      · exact absurd h (by simp)

/-- Stripping a one-character string yields that string or nothing. -/
theorem pyStrip_singleton (c : Char) : pyStrip [c] = [] ∨ pyStrip [c] = [c] := by
  unfold pyStrip
  by_cases h : pySpace c
  · left; simp [List.dropWhile_cons, h]
  · right; simp [List.dropWhile_cons, h]

/-- Python `int(s, 16)` on a one-character string is between 0 and 15:
a sign alone does not parse, so a single character is a bare hex digit. -/
theorem pyIntHex_singleton {c : Char} {z : Int} (h : pyIntHex [c] = some z) :
    0 ≤ z ∧ z ≤ 15 := by
  unfold pyIntHex at h
  rcases pyStrip_singleton c with hs | hs <;> rw [hs] at h
  · simp [pySign, pyHexBody, digitsRun, pyIntFinish] at h
  · unfold pySign at h
    by_cases h1 : c = '+'
    · simp [h1, pyHexBody, digitsRun, pyIntFinish] at h
    · by_cases h2 : c = '-'
      · simp [h1, h2, pyHexBody, digitsRun, pyIntFinish] at h
      · simp only [h1, h2, if_false] at h
        unfold pyHexBody digitsRun at h
        by_cases h3 : c = '_'
        · simp [h3, pyIntFinish] at h
        · simp only [h3, if_false] at h
          cases hd : hexDigitVal c with
          | none => rw [hd] at h; simp [pyIntFinish] at h
          | some d =>
            rw [hd] at h
            have hdle := hexDigitVal_le15 hd
            simp [digitsAux, pyIntFinish] at h
            omega

/-- Membership survives `pyStrip`. -/
theorem mem_of_mem_pyStrip {c : Char} {l : List Char} (h : c ∈ pyStrip l) : c ∈ l := by
  unfold pyStrip at h
  rw [List.mem_reverse] at h
  have h2 := (List.dropWhile_sublist (p := pySpace)).subset h
  rw [List.mem_reverse] at h2
  exact (List.dropWhile_sublist (p := pySpace)).subset h2

/-- A detected negative sign means a minus character was present. -/
theorem pySign_neg {l : List Char} (h : (pySign l).1 = true) : '-' ∈ l := by
  cases l with
  | nil => simp [pySign] at h
  | cons c rest =>
    by_cases h1 : c = '+'
    · simp [pySign, h1] at h
    · by_cases h2 : c = '-'
      · subst h2; exact List.mem_cons_self _ _
      · simp [pySign, h1, h2] at h

/-- Python `int(s, 16)` returns a negative number only if `s` contains a
minus sign. -/
theorem pyIntHex_neg_mem {l : List Char} {z : Int} (h : pyIntHex l = some z)
    (hz : z < 0) : '-' ∈ l := by
  unfold pyIntHex at h
  cases hb : pyHexBody (pySign (pyStrip l)).2 with
  | none => rw [hb] at h; simp [pyIntFinish] at h
  | some n =>
    rw [hb] at h
    simp only [pyIntFinish] at h
    injection h with h
    by_cases hneg : (pySign (pyStrip l)).1 = true
    · exact mem_of_mem_pyStrip (pySign_neg hneg)
    · rw [if_neg hneg] at h
      omega

/-- A send action never occurs in the accept prefix of an iteration. -/
theorem sendReply_not_mem_preTrace (st : IterState) (r : List Nat) :
    Action.sendReply r ∉ preTrace st := by
  unfold preTrace
  split <;> simp

/-- A send action never occurs in the lazy-open segment of an iteration. -/
theorem sendReply_not_mem_lazyOpen (b : Bool) (r : List Nat) :
    Action.sendReply r ∉ lazyOpen b := by
  unfold lazyOpen
  split <;> simp

/-- C1: the three documented examples parse as specified: `22F8921` gives
reply length 0x2F = 47 and payload `8921`; `X78192` gives reply length 0 and
payload `78192` (invalid first digit); `3A2G9130` gives reply length 0
(`A2G` is not valid hex) and payload `9130`, 4 leading bytes discarded. -/
theorem c1_parse_examples :
    parse ['2','2','F','8','9','2','1'] = some ⟨2, 47, ['8','9','2','1']⟩ ∧
    parse ['X','7','8','1','9','2'] = some ⟨0, 0, ['7','8','1','9','2']⟩ ∧
    parse ['3','A','2','G','9','1','3','0'] = some ⟨3, 0, ['9','1','3','0']⟩ := by
  refine ⟨?_, ?_, ?_⟩ <;> rfl

/-- C2 counterexample: on input `28` the first byte gives N = 2 and the
length substring `raw[1:3] = "8"` is too short (one character instead of
two), yet the parsed reply length is 8, not 0 as the claim states: a
too-short substring that is itself valid hex yields its hex value. -/
theorem c2_counterexample :
    pyIntHex ['2'] = some 2 ∧
    (List.take 2 ['8']).length < 2 ∧
    parse ['2','8'] = some ⟨2, 8, []⟩ ∧
    (parse ['2','8']).map Frame.replyLength ≠ some 0 := by
  refine ⟨rfl, by decide, rfl, by decide⟩

/-- C2 amended: for every non-empty input whose first byte is a valid hex
digit giving N, if the substring `raw[1 : 1+N]` is absent or not valid hex
(a too-short substring that is valid hex instead parses to its value), the
reply length is 0, while the payload is still the input with exactly `1+N`
leading bytes discarded, N not being reset by the step-3 failure. -/
theorem c2_amended_parse (d0 : Char) (tl : List Char) (z : Int)
    (h0 : pyIntHex [d0] = some z)
    (hbad : pyIntHex (tl.take z.toNat) = none) :
    parse (d0 :: tl) = some ⟨z.toNat, 0, (d0 :: tl).drop (1 + z.toNat)⟩ := by
  have hd : (d0 :: tl).drop (1 + z.toNat) = tl.drop z.toNat := by
    rw [Nat.add_comm]
    rfl
  rw [hd]
  simp [parse, parseFrame, h0, hbad]

/-- Witness for `c2_amended_parse` at the documented input `3A2G9130`. -/
theorem c2_amended_parse_witness :
    parse ['3','A','2','G','9','1','3','0'] =
      some ⟨(3 : Int).toNat, 0,
            (('3' :: ['A','2','G','9','1','3','0']).drop (1 + (3 : Int).toNat))⟩ :=
  c2_amended_parse '3' ['A','2','G','9','1','3','0'] 3 (by decide) (by decide)

/-- C6 counterexample: on input `2-5` the length field `-5` parses (Python
`int` accepts a sign), so the frame's reply length is the negative number
-5, contradicting the declared field range `replyLength ≥ 0`. -/
theorem c6_counterexample :
    parse ['2','-','5'] = some ⟨2, -5, []⟩ ∧
    ¬ (0 ≤ (-5 : Int)) := by
  refine ⟨rfl, by decide⟩

/-- C6 amended: for every non-empty input the frame's digit count is between
0 and 15, and the reply length is non-negative provided the length field
contains no minus sign (with a minus sign it can be negative, the
counterexample). -/
theorem c6_frame_ranges (d0 : Char) (tl : List Char) :
    parse (d0 :: tl) = some (parseFrame d0 tl) ∧
    (parseFrame d0 tl).replyLengthDigitCount ≤ 15 ∧
    ('-' ∉ tl.take (parseFrame d0 tl).replyLengthDigitCount →
      0 ≤ (parseFrame d0 tl).replyLength) := by
  refine ⟨rfl, ?_, ?_⟩
  · cases hz : pyIntHex [d0] with
    | none => simp [parseFrame, hz]
    | some z =>
      obtain ⟨hz0, hz15⟩ := pyIntHex_singleton hz
      simp [parseFrame, hz]
      omega
  · cases hz : pyIntHex [d0] with
    | none => simp [parseFrame, hz]
    | some z =>
      simp only [parseFrame, hz]
      intro hmem
      cases hrl : pyIntHex (tl.take z.toNat) with
      | none => simp [hrl]
      | some w =>
        simp only [hrl, Option.getD_some]
        by_contra hw
        push_neg at hw
        exact hmem (pyIntHex_neg_mem hrl (by omega))

/-- Witness for `c6_frame_ranges` at the input `22F` (inner hypothesis
discharged: the length field `2F` has no minus sign). -/
theorem c6_frame_ranges_witness :
    parse ['2','2','F'] = some (parseFrame '2' ['2','F']) ∧
    (parseFrame '2' ['2','F']).replyLengthDigitCount ≤ 15 ∧
    0 ≤ (parseFrame '2' ['2','F']).replyLength :=
  ⟨(c6_frame_ranges '2' ['2','F']).1, (c6_frame_ranges '2' ['2','F']).2.1,
   (c6_frame_ranges '2' ['2','F']).2.2 (by decide)⟩

/-- C3: for a processed frame with positive reply length and a send that
does not raise, the reply is sent exactly when strict mode is off or the
decoded reply's length equals the expected length; in strict mode a shorter
decoded reply means nothing is sent; with strict mode off the raw reply
bytes are sent regardless of length (seriald.py lines 278-289). -/
theorem c3_strict_reply (strict : Bool) (st : IterState) (env : IterEnv) (f : Frame)
    (hexc : env.recvExc = none)
    (hp : parse env.recvData = some f)
    (hrl : 0 < f.replyLength)
    (hsend : env.sendExc = none) :
    (Action.sendReply env.replyRaw ∈ (runBody strict st env).1 ↔
      (strict = false ∨ (env.replyDecoded.length : Int) = f.replyLength)) ∧
    (strict = true → (env.replyDecoded.length : Int) < f.replyLength →
      ∀ r, Action.sendReply r ∉ (runBody strict st env).1) ∧
    (strict = false → Action.sendReply env.replyRaw ∈ (runBody strict st env).1) := by
  cases hd : env.recvData with
  | nil => rw [hd] at hp; exact absurd hp (by simp [parse])
  | cons d0 tl =>
    rw [hd] at hp
    have hf : parseFrame d0 tl = f := by simpa [parse] using hp
    subst hf
    have hkey : ∀ r : List Nat, (Action.sendReply r ∈ (runBody strict st env).1 ↔
        Action.sendReply r ∈ (tailTrace strict (parseFrame d0 tl) env).1) := by
      intro r
      simp [runBody, hexc, hd, List.mem_append, sendReply_not_mem_preTrace st r,
            sendReply_not_mem_lazyOpen st.serialOpen r]
    by_cases hcond :
        (env.replyDecoded.length : Int) = (parseFrame d0 tl).replyLength ∨ strict = false
    · have htail : (tailTrace strict (parseFrame d0 tl) env).1 =
          [Action.readSerial (parseFrame d0 tl).replyLength.toNat,
           Action.sendReply env.replyRaw] := by
        unfold tailTrace
        rw [if_pos hrl, if_pos hcond, hsend]
      refine ⟨?_, ?_, ?_⟩
      · rw [hkey, htail]
        simp only [List.mem_cons, List.not_mem_nil, or_false]
        constructor
        · intro _; tauto
        · intro _; simp
      · intro hstrict hlt r
        rcases hcond with h1 | h2
        · exact absurd h1 (by omega)
        · rw [hstrict] at h2; exact absurd h2 (by simp)
      · intro _
        rw [hkey, htail]
        simp
    · have htail : (tailTrace strict (parseFrame d0 tl) env).1 =
          [Action.readSerial (parseFrame d0 tl).replyLength.toNat] := by
        unfold tailTrace
        rw [if_pos hrl, if_neg hcond]
      refine ⟨?_, ?_, ?_⟩
      · rw [hkey, htail]
        simp only [List.mem_cons, List.not_mem_nil, or_false]
        constructor
        · intro hx; exact absurd hx (by simp)
        · intro hx; exact absurd hx (by tauto)
      · intro _ _ r
        rw [hkey, htail]
        simp
      · intro hstrict
        exact absurd (Or.inr hstrict) hcond

/-- Witness for `c3_strict_reply`: frame `12A` (reply length 2), a
two-character decoded reply, strict mode on. -/
theorem c3_strict_reply_witness :
    Action.sendReply envOkSend.replyRaw ∈ (runBody true stBoth envOkSend).1 ↔
      (true = false ∨
        (envOkSend.replyDecoded.length : Int) = (parseFrame '1' ['2','A']).replyLength) :=
  (c3_strict_reply true stBoth envOkSend (parseFrame '1' ['2','A'])
    rfl rfl (by decide) rfl).1

/-- C7: in every iteration that processes a frame, the trace is exactly an
accept/lazy-open/flush prefix, then the payload write immediately followed
by closing and reopening the serial channel, then the read/send tail — so
any serial read happens only after the write and the close+reopen cycle;
the prefix contains an `openSerial` exactly when the channel was closed
(lazy open, seriald.py lines 260-274). -/
theorem c7_write_cycle (strict : Bool) (st : IterState) (env : IterEnv) (f : Frame)
    (hexc : env.recvExc = none)
    (hp : parse env.recvData = some f) :
    (runBody strict st env).1 =
      (preTrace st ++ lazyOpen st.serialOpen ++ [Action.flushOut, Action.flushIn]) ++
        Action.writeSerial f.payload :: Action.closeSerial :: Action.openSerial ::
          (tailTrace strict f env).1 ∧
    (∀ n, Action.readSerial n ∉
      preTrace st ++ lazyOpen st.serialOpen ++ [Action.flushOut, Action.flushIn]) ∧
    (Action.openSerial ∈
        preTrace st ++ lazyOpen st.serialOpen ++ [Action.flushOut, Action.flushIn] ↔
      st.serialOpen = false) := by
  cases hd : env.recvData with
  | nil => rw [hd] at hp; exact absurd hp (by simp [parse])
  | cons d0 tl =>
    rw [hd] at hp
    have hf : parseFrame d0 tl = f := by simpa [parse] using hp
    subst hf
    refine ⟨?_, ?_, ?_⟩
    · simp [runBody, hexc, hd]
    · intro n
      cases hso : st.socketOpen <;> cases hse : st.serialOpen <;>
        simp [preTrace, lazyOpen, hso, hse]
    · cases hso : st.socketOpen <;> cases hse : st.serialOpen <;>
        simp [preTrace, lazyOpen, hso, hse]

/-- Witness for `c7_write_cycle` at the frame `12A`. -/
theorem c7_write_cycle_witness :
    (runBody true stBoth envOkSend).1 =
      (preTrace stBoth ++ lazyOpen stBoth.serialOpen ++
        [Action.flushOut, Action.flushIn]) ++
        Action.writeSerial (parseFrame '1' ['2','A']).payload ::
          Action.closeSerial :: Action.openSerial ::
          (tailTrace true (parseFrame '1' ['2','A']) envOkSend).1 :=
  (c7_write_cycle true stBoth envOkSend (parseFrame '1' ['2','A']) rfl rfl).1

/-- C8: on empty recv data (peer closed) or a `ConnectionResetError` while
sending the reply, the iteration completes normally (nothing propagates):
the client socket ends closed, the serial state is preserved (still open in
the reset case), the trace ends with the socket close, the loop goes on to
the remaining iterations in the same daemon instance, and the next
iteration begins by accepting a new connection. -/
theorem c8_reconnect (strict : Bool) (st : IterState) (env : IterEnv)
    (rest : List IterEnv) (f : Frame)
    (hexc : env.recvExc = none)
    (hcase : env.recvData = [] ∨
      (parse env.recvData = some f ∧ 0 < f.replyLength ∧
       env.sendExc = some PyExc.connectionReset ∧
       ((env.replyDecoded.length : Int) = f.replyLength ∨ strict = false))) :
    (runBody strict st env).2 =
      BodyResult.ok ⟨false, if env.recvData = [] then st.serialOpen else true⟩ ∧
    ((runBody strict st env).1).getLast? = some Action.closeSock ∧
    runLoop strict st (env :: rest) =
      ((runBody strict st env).1 ++
        (runLoop strict ⟨false, if env.recvData = [] then st.serialOpen else true⟩ rest).1,
       (runLoop strict ⟨false, if env.recvData = [] then st.serialOpen else true⟩ rest).2) ∧
    (∀ env2,
      ((runBody strict ⟨false, if env.recvData = [] then st.serialOpen else true⟩ env2).1).head? =
        some Action.accept) := by
  have hhead : ∀ (b : Bool) (env2 : IterEnv),
      ((runBody strict ⟨false, b⟩ env2).1).head? = some Action.accept := by
    intro b env2
    cases he2 : env2.recvExc with
    | some e => simp [runBody, he2, preTrace]
    | none =>
      cases hd2 : env2.recvData with
      | nil => simp [runBody, he2, hd2, preTrace]
      | cons a as => simp [runBody, he2, hd2, preTrace]
  rcases hcase with hempty | ⟨hp, hrl, hreset, hcond⟩
  · have hrb : runBody strict st env =
        (preTrace st ++ [Action.closeSock], BodyResult.ok ⟨false, st.serialOpen⟩) := by
      simp [runBody, hexc, hempty]
    refine ⟨?_, ?_, ?_, ?_⟩
    · rw [hrb]; simp [hempty]
    · rw [hrb]
      exact List.getLast?_append_of_ne_nil _ (by simp)
    · simp only [runLoop, hrb, hempty, if_pos]
    · intro env2
      simp only [hempty, if_pos]
      exact hhead st.serialOpen env2
  · cases hd : env.recvData with
    | nil => rw [hd] at hp; exact absurd hp (by simp [parse])
    | cons d0 tl =>
      rw [hd] at hp
      have hf : parseFrame d0 tl = f := by simpa [parse] using hp
      subst hf
      have htail : tailTrace strict (parseFrame d0 tl) env =
          ([Action.readSerial (parseFrame d0 tl).replyLength.toNat, Action.closeSock],
           BodyResult.ok ⟨false, true⟩) := by
        unfold tailTrace
        rw [if_pos hrl, if_pos hcond, hreset]
      have hrb : runBody strict st env =
          (preTrace st ++ lazyOpen st.serialOpen ++
            (Action.flushOut :: Action.flushIn ::
             Action.writeSerial (parseFrame d0 tl).payload ::
             Action.closeSerial :: Action.openSerial ::
             [Action.readSerial (parseFrame d0 tl).replyLength.toNat, Action.closeSock]),
           BodyResult.ok ⟨false, true⟩) := by
        simp [runBody, hexc, hd, htail]
      have hif : (if (d0 :: tl : List Char) = [] then st.serialOpen else true) = true := by
        simp
      refine ⟨?_, ?_, ?_, ?_⟩
      · rw [hif, hrb]
      · rw [hrb]
        exact List.getLast?_append_of_ne_nil _ (by simp)
      · rw [hif]
        simp [runLoop, hrb]
      · intro env2
        rw [hif]
        exact hhead true env2

/-- Witness for `c8_reconnect`: a reset while sending the reply of frame
`12A` with strict mode off. -/
theorem c8_reconnect_witness :
    (runBody false stBoth envReset).2 =
      BodyResult.ok ⟨false, if envReset.recvData = [] then stBoth.serialOpen else true⟩ :=
  (c8_reconnect false stBoth envReset [] (parseFrame '1' ['2','A']) rfl
    (Or.inr ⟨rfl, by decide, rfl, Or.inr rfl⟩)).1

/-- C9: an exception that escapes the loop body (anything but the locally
handled reset-during-send, which yields `BodyResult.ok` instead) is caught
at the loop boundary: the traceback is written to the log file, the
shutdown sequence `__stop` is invoked, and no further iteration runs — a
single unexpected error tears down the whole daemon. -/
theorem c9_fatal_teardown (strict : Bool) (st : IterState) (env : IterEnv)
    (rest : List IterEnv) (tr : List Action) (e : PyExc)
    (h : runBody strict st env = (tr, BodyResult.raised e)) :
    runDaemon strict st (env :: rest) =
      tr.map RunEvent.act ++ [RunEvent.logTrace e, RunEvent.stopCalled] := by
  simp [runDaemon, runLoop, h]

/-- Witness for `c9_fatal_teardown`: a `ValueError` at recv/decode time. -/
theorem c9_fatal_teardown_witness :
    runDaemon true stBoth [envRaise] =
      ([] : List Action).map RunEvent.act ++
        [RunEvent.logTrace PyExc.valueError, RunEvent.stopCalled] :=
  c9_fatal_teardown true stBoth envRaise [] [] PyExc.valueError (by decide)

/-- C4 counterexample to the claim as stated: the pidfile exists, records
the live pid 42 — but the pidfile lock is not held, so `_pidfile_isbusy`
returns `False` (its first check, seriald.py line 449) and `start()` does
NOT refuse: it daemonizes, overwrites the pidfile, binds and listens. -/
theorem c4_counterexample :
    envStale.pidfileExists = true ∧
    getPid envStale.pidfileContent = Except.ok (some 42) ∧
    envStale.pidAlive = true ∧
    (start iniDemo envStale).2 = StartOutcome.running cfgDemo ∧
    StartEvent.daemonized ∈ (start iniDemo envStale).1 ∧
    StartEvent.pidfileWritten 7 ∈ (start iniDemo envStale).1 ∧
    StartEvent.socketBound ∈ (start iniDemo envStale).1 ∧
    StartEvent.listening ∈ (start iniDemo envStale).1 ∧
    (start iniDemo envStale).2 ≠ StartOutcome.refused := by
  refine ⟨rfl, rfl, rfl, by decide, by decide, by decide, by decide, by decide, by decide⟩

/-- C4 amended: while a pidfile exists whose lock is held and whose
recorded pid is alive (and the configuration load completes without
raising), `start()` refuses to proceed: it logs the already-running error,
closes syslog and returns, without daemonizing, without writing the
pidfile, and without binding or listening. -/
theorem c4_single_instance (ini : DaemonInit) (env : StartEnv) (stL : ConfigState)
    (p : List Char) (pid : Int)
    (hload : postLoadState (loadConfig ini.configFile env.openConfigResult ini.st) ini.st =
      some stL)
    (hpath : effectiveLockPath ini stL = some p)
    (hex : env.pidfileExists = true)
    (hlock : env.lockHeld = true)
    (hpid : getPid env.pidfileContent = Except.ok (some pid))
    (halive : env.pidAlive = true) :
    start ini env =
      ([StartEvent.syslogOpened, StartEvent.logAlreadyRunning, StartEvent.syslogClosed],
       StartOutcome.refused) ∧
    StartEvent.daemonized ∉ (start ini env).1 ∧
    (∀ q, StartEvent.pidfileWritten q ∉ (start ini env).1) ∧
    StartEvent.socketBound ∉ (start ini env).1 ∧
    StartEvent.listening ∉ (start ini env).1 := by
  have hbusy : pidfileIsBusy env.lockHeld env.pidfileContent env.pidAlive =
      Except.ok true := by
    rw [hlock, halive]
    simp [pidfileIsBusy, hpid]
  have hmain : start ini env =
      ([StartEvent.syslogOpened, StartEvent.logAlreadyRunning, StartEvent.syslogClosed],
       StartOutcome.refused) := by
    unfold start
    cases hlr : loadConfig ini.configFile env.openConfigResult ini.st with
    | nameError => rw [hlr] at hload; exact absurd hload (by simp [postLoadState])
    | raised e evs => rw [hlr] at hload; exact absurd hload (by simp [postLoadState])
    | skipped =>
      rw [hlr] at hload
      simp only [postLoadState, Option.some.injEq] at hload
      subst hload
      simp [startAfterLoad, hpath, hex, hbusy]
    | loaded evs st' =>
      rw [hlr] at hload
      simp only [postLoadState, Option.some.injEq] at hload
      subst hload
      simp [startAfterLoad, hpath, hex, hbusy]
  refine ⟨hmain, ?_, ?_, ?_, ?_⟩
  · rw [hmain]; simp
  · intro q; rw [hmain]; simp
  · rw [hmain]; simp
  · rw [hmain]; simp

/-- Witness for `c4_single_instance`: lock held, pid 42 recorded and alive. -/
theorem c4_single_instance_witness :
    start iniDemo envBusy =
      ([StartEvent.syslogOpened, StartEvent.logAlreadyRunning, StartEvent.syslogClosed],
       StartOutcome.refused) :=
  (c4_single_instance iniDemo envBusy cfgDemo ['p'] 42
    (by decide) (by decide) rfl rfl rfl rfl).1

/-- C5 counterexample: the line `data-length = abc` matches the option
regex with the non-numeric value `abc`; `int('abc')` raises an uncaught
`ValueError`, so the load aborts with no error logged and no lines
continue — a bad value IS fatal, contradicting the claim. -/
theorem c5_counterexample :
    configLineMatch (pyStrip lineBadNumeric) =
      some (ConfigKey.dataLength, ['a','b','c']) ∧
    loadLines cfgDemo 0 [lineBadNumeric] = ([], Except.error PyExc.valueError) := by
  refine ⟨by decide, rfl⟩

/-- C5 amended: a config line assigning a numeric key whose value parses as
a non-positive integer logs an invalid-value error, leaves the field (and
the whole state) unchanged, and parsing continues with the remaining
lines; a non-numeric value instead raises an uncaught `ValueError` which
aborts the load (the counterexample). -/
theorem c5_nonpositive_numeric (st : ConfigState) (n : Nat) (line : List Char)
    (rest : List (List Char)) (k : ConfigKey) (v : List Char) (z : Int)
    (hk : line.head? ≠ some '#')
    (hm : configLineMatch (pyStrip line) = some (k, v))
    (hnum : k = ConfigKey.dataLength ∨ k = ConfigKey.socketPort)
    (hz : pyIntDec v = some z) (hneg : z ≤ 0) :
    loadLines st n (line :: rest) =
      (CfgEvent.invalidValue k :: (loadLines st (n + 1) rest).1,
       (loadLines st (n + 1) rest).2) := by
  have hpl : processLine st (n + 1) line = ([CfgEvent.invalidValue k], Except.ok st) := by
    unfold processLine
    rw [if_neg hk, hm]
    rcases hnum with hk1 | hk1 <;> subst hk1 <;> simp [applyOpt, hz, hneg]
  simp [loadLines, hpl]

/-- Witness for `c5_nonpositive_numeric`: the spec's line `data_length=-5`. -/
theorem c5_nonpositive_numeric_witness :
    loadLines cfgDemo 0 [lineNegNumeric] =
      (CfgEvent.invalidValue ConfigKey.dataLength :: (loadLines cfgDemo 1 []).1,
       (loadLines cfgDemo 1 []).2) :=
  c5_nonpositive_numeric cfgDemo 0 lineNegNumeric [] ConfigKey.dataLength
    ['-','5'] (-5) (by decide) (by decide) (Or.inl rfl) (by decide) (by decide)

/-- C10: with `config_file = None` the local `conf` is never bound, so
`__load_config` raises `NameError` when `if conf is not None:` reads it —
the load is not a no-op; `start()` hits it through its unconditional load
and propagates it, and so does the SIGHUP reload handler. -/
theorem c10_none_config (ini : DaemonInit) (env : StartEnv) (st : ConfigState)
    (openRes : Option (List (List Char)))
    (hcfg : ini.configFile = none) :
    loadConfig none openRes st = LoadResult.nameError ∧
    start ini env = ([StartEvent.syslogOpened], StartOutcome.raised PyExc.nameError) ∧
    acceptSignal none openRes st SIGHUP = SigResult.reloaded LoadResult.nameError := by
  refine ⟨rfl, ?_, rfl⟩
  simp [start, loadConfig, hcfg]

/-- Witness for `c10_none_config` at a concrete daemon with no config path. -/
theorem c10_none_config_witness :
    loadConfig none none cfgDemo = LoadResult.nameError ∧
    start ⟨none, none, cfgDemo⟩ envBusy =
      ([StartEvent.syslogOpened], StartOutcome.raised PyExc.nameError) ∧
    acceptSignal none none cfgDemo SIGHUP = SigResult.reloaded LoadResult.nameError :=
  c10_none_config ⟨none, none, cfgDemo⟩ envBusy cfgDemo none rfl

end Seriald
